import Mathlib

/-!
Verification development for the la_solana collateralized-debt program.

The Rust sources (src/state.rs, src/helpers.rs, src/params.rs,
src/processor.rs) are shallowly embedded below.  Machine integers (u64,
u8) are modelled as `Nat` with explicit bounds; the unchecked Rust
arithmetic operators `+`, `-`, `*` on u64 are modelled as fallible
operations that abort (as the Rust program would on an arithmetic
overflow or underflow) outside the representable range, returning
`PErr.ArithAbort`.  Persisted account data is a `List Nat` of bytes.
The floating-point price conversion inside the collateral check
(`get_lamport_price`, an oracle placeholder in the source) is abstracted
as a boolean-valued parameter `priceCheck`, applied exactly where the
source applies the floating comparison; the integer subtraction of the
gas fee that precedes it is modelled concretely.
-/

set_option maxRecDepth 100000

namespace LaSolana

/-- Errors returned by the program: the `ProgramError` variants and the
`LiquityError` variants actually used by the embedded handlers, plus
`ArithAbort` for a Rust arithmetic overflow/underflow abort and
`ExternalCallFailed` for a failing external token-program invocation. -/
inductive PErr where
  | MissingRequiredSignature
  | InvalidAccountData
  | AccountAlreadyInitialized
  | TroveIsNotInitialized
  | TroveAlreadyLiquidated
  | TroveIsNotReceived
  | OnlyForTroveOwner
  | ExpectedAmountMismatch
  | InsufficientLiquidity
  | InvalidCollateral
  | NotRentExempt
  | AmountOverflow
  | ExternalCallFailed
  | ArithAbort
  deriving Repr, DecidableEq

/-- One more than the largest u64 value. -/
def U64LIM : Nat := 2 ^ 64

/-- Rust u64 addition `a + b` (aborts on overflow). -/
def u64add (a b : Nat) : Except PErr Nat :=
  if a + b < U64LIM then .ok (a + b) else .error .ArithAbort

/-- Rust u64 subtraction `a - b` (aborts on underflow). -/
def u64sub (a b : Nat) : Except PErr Nat :=
  if b ≤ a then .ok (a - b) else .error .ArithAbort

/-- Rust u64 multiplication `a * b` (aborts on overflow). -/
def u64mul (a b : Nat) : Except PErr Nat :=
  if a * b < U64LIM then .ok (a * b) else .error .ArithAbort

/-- Rust `checked_add` on u64: the handlers map its `None` case to
`LiquityError::AmountOverflow` via `ok_or`. -/
def checked_add_or_overflow (a b : Nat) : Except PErr Nat :=
  if a + b < U64LIM then .ok (a + b) else .error .AmountOverflow

/-- Little-endian byte encoding of a value, `k` bytes (`u64::to_le_bytes`
with `k = 8`). -/
def natToLe : Nat → Nat → List Nat
  | 0, _ => []
  | k + 1, v => v % 256 :: natToLe k (v / 256)

/-- Little-endian byte decoding (`u64::from_le_bytes`); each entry is
reduced mod 256 since the source reads `u8` values. -/
def leToNat : List Nat → Nat
  | [] => 0
  | b :: bs => b % 256 + 256 * leToNat bs

/-- A Rust `bool` stored as one byte (`b as u8`). -/
def boolByte (b : Bool) : Nat := if b then 1 else 0

/-- Decoding of a boolean discriminant byte: `[0] => false`,
`[1] => true`, anything else is `ProgramError::InvalidAccountData`. -/
def readFlag (b : Nat) : Except PErr Bool :=
  if b = 0 then .ok false
  else if b = 1 then .ok true
  else .error .InvalidAccountData

/-- A 32-byte ledger identity (`Pubkey`), modelled as its byte list. -/
abbrev Pubkey := List Nat

/-- params.rs: `SYSTEM_ACCOUNT_ADDRESS`, the fixed privileged system
identity, given by its 32-byte array. -/
def SYSTEM_ACCOUNT_ADDRESS : Pubkey :=
  [240, 128, 137, 181, 181, 244, 178, 11, 202, 92, 41, 67, 29, 30, 142, 34,
   115, 81, 243, 143, 175, 219, 59, 238, 174, 103, 9, 243, 15, 126, 161, 190]

/-- params.rs: `GAS_FEE` (the fixed origination charge). -/
def GAS_FEE : Nat := 200

/-- params.rs: `DEPOSIT_FEE` (percent). -/
def DEPOSIT_FEE : Nat := 4

/-- params.rs: `TEAM_FEE` (percent). -/
def TEAM_FEE : Nat := 1

/-- state.rs: the stability-pool deposit record. -/
structure Deposit where
  is_initialized : Bool
  token_amount : Nat
  reward_token_amount : Nat
  reward_governance_token_amount : Nat
  reward_coin_amount : Nat
  bank : Pubkey
  governance_bank : Pubkey
  owner : Pubkey
  deriving Repr, DecidableEq

/-- state.rs: `Deposit::LEN = 129`. -/
def Deposit.LEN : Nat := 129

/-- state.rs: `Deposit::pack_into_slice`, layout
`1, 8, 8, 8, 8, 32, 32, 32`. -/
def Deposit.pack_into_slice (d : Deposit) : List Nat :=
  boolByte d.is_initialized ::
    (natToLe 8 d.token_amount ++
      (natToLe 8 d.reward_token_amount ++
        (natToLe 8 d.reward_governance_token_amount ++
          (natToLe 8 d.reward_coin_amount ++
            (d.bank ++ (d.governance_bank ++ d.owner))))))

/-- state.rs: `Deposit::unpack_from_slice` on a 129-byte slice. -/
def Deposit.unpack_from_slice (src : List Nat) : Except PErr Deposit :=
  match readFlag (src.getD 0 0) with
  | .error e => .error e
  | .ok flag =>
    let r1 := src.drop 1
    let r2 := r1.drop 8
    let r3 := r2.drop 8
    let r4 := r3.drop 8
    let r5 := r4.drop 8
    let r6 := r5.drop 32
    let r7 := r6.drop 32
    .ok { is_initialized := flag
        , token_amount := leToNat (r1.take 8)
        , reward_token_amount := leToNat (r2.take 8)
        , reward_governance_token_amount := leToNat (r3.take 8)
        , reward_coin_amount := leToNat (r4.take 8)
        , bank := r5.take 32
        , governance_bank := r6.take 32
        , owner := r7.take 32 }

/-- solana_program `Pack::unpack_unchecked` for `Deposit`: length must
equal `LEN`, then `unpack_from_slice`. -/
def Deposit.unpack_unchecked (input : List Nat) : Except PErr Deposit :=
  if input.length = Deposit.LEN then Deposit.unpack_from_slice input
  else .error .InvalidAccountData

/-- solana_program `Pack::pack` for `Deposit`: the destination buffer
(of the given length) must have length `LEN`; on success the new buffer
contents are returned. -/
def Deposit.pack (d : Deposit) (dstLen : Nat) : Except PErr (List Nat) :=
  if dstLen = Deposit.LEN then .ok d.pack_into_slice
  else .error .InvalidAccountData

/-- Validity of a `Deposit` as a typed Rust value: u64 fields in range
and 32-byte identities. -/
def Deposit.valid (d : Deposit) : Prop :=
  d.token_amount < U64LIM ∧ d.reward_token_amount < U64LIM ∧
  d.reward_governance_token_amount < U64LIM ∧ d.reward_coin_amount < U64LIM ∧
  d.bank.length = 32 ∧ d.governance_bank.length = 32 ∧ d.owner.length = 32

instance (d : Deposit) : Decidable d.valid := by
  unfold Deposit.valid; infer_instance

/-- The all-zero (never created) deposit record. -/
def Deposit.zero : Deposit :=
  { is_initialized := false, token_amount := 0, reward_token_amount := 0,
    reward_governance_token_amount := 0, reward_coin_amount := 0,
    bank := List.replicate 32 0, governance_bank := List.replicate 32 0,
    owner := List.replicate 32 0 }

/-- state.rs: the collateralized debt position record. -/
structure Trove where
  is_initialized : Bool
  is_received : Bool
  is_liquidated : Bool
  borrow_amount : Nat
  lamports_amount : Nat
  team_fee : Nat
  depositor_fee : Nat
  amount_to_close : Nat
  owner : Pubkey
  deriving Repr, DecidableEq

/-- state.rs: `Trove::LEN = 75`. -/
def Trove.LEN : Nat := 75

/-- state.rs: `Trove::pack_into_slice`, layout
`1, 1, 1, 8, 8, 8, 8, 8, 32`. -/
def Trove.pack_into_slice (t : Trove) : List Nat :=
  boolByte t.is_initialized :: boolByte t.is_received ::
    boolByte t.is_liquidated ::
    (natToLe 8 t.borrow_amount ++
      (natToLe 8 t.lamports_amount ++
        (natToLe 8 t.team_fee ++
          (natToLe 8 t.depositor_fee ++
            (natToLe 8 t.amount_to_close ++ t.owner)))))

/-- state.rs: `Trove::unpack_from_slice` on a 75-byte slice; the three
discriminant bytes are checked in the source order (`is_initialized`,
then `is_liquidated`, then `is_received`). -/
def Trove.unpack_from_slice (src : List Nat) : Except PErr Trove :=
  match readFlag (src.getD 0 0) with
  | .error e => .error e
  | .ok init =>
    match readFlag (src.getD 2 0) with
    | .error e => .error e
    | .ok liq =>
      match readFlag (src.getD 1 0) with
      | .error e => .error e
      | .ok recv =>
        let r1 := src.drop 3
        let r2 := r1.drop 8
        let r3 := r2.drop 8
        let r4 := r3.drop 8
        let r5 := r4.drop 8
        .ok { is_initialized := init
            , is_received := recv
            , is_liquidated := liq
            , borrow_amount := leToNat (r1.take 8)
            , lamports_amount := leToNat (r2.take 8)
            , team_fee := leToNat (r3.take 8)
            , depositor_fee := leToNat (r4.take 8)
            , amount_to_close := leToNat (r5.take 8)
            , owner := r5.drop 8 }

/-- solana_program `Pack::unpack_unchecked` for `Trove`. -/
def Trove.unpack_unchecked (input : List Nat) : Except PErr Trove :=
  if input.length = Trove.LEN then Trove.unpack_from_slice input
  else .error .InvalidAccountData

/-- solana_program `Pack::pack` for `Trove`. -/
def Trove.pack (t : Trove) (dstLen : Nat) : Except PErr (List Nat) :=
  if dstLen = Trove.LEN then .ok t.pack_into_slice
  else .error .InvalidAccountData

/-- Validity of a `Trove` as a typed Rust value. -/
def Trove.valid (t : Trove) : Prop :=
  t.borrow_amount < U64LIM ∧ t.lamports_amount < U64LIM ∧
  t.team_fee < U64LIM ∧ t.depositor_fee < U64LIM ∧
  t.amount_to_close < U64LIM ∧ t.owner.length = 32

instance (t : Trove) : Decidable t.valid := by
  unfold Trove.valid; infer_instance

/-- The all-zero (never created) trove record. -/
def Trove.zero : Trove :=
  { is_initialized := false, is_received := false, is_liquidated := false,
    borrow_amount := 0, lamports_amount := 0, team_fee := 0,
    depositor_fee := 0, amount_to_close := 0, owner := List.replicate 32 0 }

/-- helpers.rs: `check_min_collateral_include_gas_fee(amount, lamports)`.
The source computes `get_lamport_price(lamports - GAS_FEE) / amount as
f64 >= MIN_COLLATERAL`.  The u64 subtraction of the gas fee is modelled
concretely (it aborts on underflow); the floating-point price conversion
and ratio comparison are abstracted as the parameter
`priceCheck netLamports amount`. -/
def check_min_collateral_include_gas_fee (priceCheck : Nat → Nat → Bool)
    (amount lamports : Nat) : Except PErr Bool :=
  match u64sub lamports GAS_FEE with
  | .error e => .error e
  | .ok l => .ok (priceCheck l amount)

/-- helpers.rs: `get_trove_debt_amount(amount) = amount - GAS_FEE`. -/
def get_trove_debt_amount (amount : Nat) : Except PErr Nat :=
  u64sub amount GAS_FEE

/-- helpers.rs: `get_depositors_fee(amount) =
get_trove_debt_amount(amount) * DEPOSIT_FEE / 100`. -/
def get_depositors_fee (amount : Nat) : Except PErr Nat :=
  match get_trove_debt_amount amount with
  | .error e => .error e
  | .ok d =>
    match u64mul d DEPOSIT_FEE with
    | .error e => .error e
    | .ok m => .ok (m / 100)

/-- helpers.rs: `get_team_fee(amount) =
get_trove_debt_amount(amount) * TEAM_FEE / 100`. -/
def get_team_fee (amount : Nat) : Except PErr Nat :=
  match get_trove_debt_amount amount with
  | .error e => .error e
  | .ok d =>
    match u64mul d TEAM_FEE with
    | .error e => .error e
    | .ok m => .ok (m / 100)

/-- helpers.rs: `get_trove_sent_amount(amount) =
get_trove_debt_amount(amount) - get_depositors_fee(amount) -
get_team_fee(amount)`, evaluated left to right. -/
def get_trove_sent_amount (amount : Nat) : Except PErr Nat :=
  match get_trove_debt_amount amount with
  | .error e => .error e
  | .ok d =>
    match get_depositors_fee amount with
    | .error e => .error e
    | .ok df =>
      match u64sub d df with
      | .error e => .error e
      | .ok x =>
        match get_team_fee amount with
        | .error e => .error e
        | .ok tf => u64sub x tf

/-! Processor handlers (processor.rs).  Each handler takes the fields of
the involved accounts that the source reads (signer flag, keys, account
data bytes, lamport balances) and returns either an error — in which
case the source returns before its single `pack` call, so the persisted
account data is unchanged — or the data written back by `pack` (for
`Liquidate`, the updated lamport balances and the emptied data). -/

/-- processor.rs: `process_add_deposit_reward` (Accrue reward).
Accounts: depositor (signer), deposit account. -/
def process_add_deposit_reward (depositorKey : Pubkey)
    (depositorIsSigner : Bool) (depositData : List Nat)
    (coin governance token : Nat) : Except PErr (List Nat) :=
  if depositorIsSigner = false then .error .MissingRequiredSignature
  else if depositorKey ≠ SYSTEM_ACCOUNT_ADDRESS then
    .error .MissingRequiredSignature
  else
    match Deposit.unpack_unchecked depositData with
    | .error e => .error e
    | .ok deposit =>
      match u64add deposit.reward_coin_amount coin with
      | .error e => .error e
      | .ok rc =>
        match u64add deposit.reward_governance_token_amount governance with
        | .error e => .error e
        | .ok rg =>
          match u64add deposit.reward_token_amount token with
          | .error e => .error e
          | .ok rt =>
            Deposit.pack
              { deposit with reward_coin_amount := rc,
                             reward_governance_token_amount := rg,
                             reward_token_amount := rt }
              depositData.length

/-- processor.rs: `process_claim_deposit_reward` (Claim reward).
Accounts: depositor (signer), deposit account. -/
def process_claim_deposit_reward (depositorKey : Pubkey)
    (depositorIsSigner : Bool) (depositData : List Nat) :
    Except PErr (List Nat) :=
  if depositorIsSigner = false then .error .MissingRequiredSignature
  else if depositorKey ≠ SYSTEM_ACCOUNT_ADDRESS then
    .error .MissingRequiredSignature
  else
    match Deposit.unpack_unchecked depositData with
    | .error e => .error e
    | .ok deposit =>
      Deposit.pack
        { deposit with reward_governance_token_amount := 0,
                       reward_token_amount := 0,
                       reward_coin_amount := 0 }
        depositData.length

/-- processor.rs: `process_withdraw_deposit` (Withdraw from pool).
Accounts: sys acc (signer), deposit account. -/
def process_withdraw_deposit (sysKey : Pubkey) (sysIsSigner : Bool)
    (depositData : List Nat) (amount : Nat) : Except PErr (List Nat) :=
  if sysIsSigner = false then .error .MissingRequiredSignature
  else if sysKey ≠ SYSTEM_ACCOUNT_ADDRESS then
    .error .MissingRequiredSignature
  else
    match Deposit.unpack_unchecked depositData with
    | .error e => .error e
    | .ok deposit =>
      if amount > deposit.token_amount then .error .InsufficientLiquidity
      else
        match u64sub deposit.token_amount amount with
        | .error e => .error e
        | .ok t =>
          Deposit.pack { deposit with token_amount := t } depositData.length

/-- processor.rs: `process_add_deposit` (Deposit to pool).
Accounts: depositor (signer), deposit account, rent sysvar, token
program, temp pda token (bank), temp governance token, mint.  The
rent-exemption verdict of the host is the parameter `rentExempt`; the
outcome of the invoked external token-program burn is `burnOk` (its
amount argument `amount * 1000000000` is computed with u64
multiplication first). -/
def process_add_deposit (depositorKey : Pubkey) (depositorIsSigner : Bool)
    (depositData : List Nat) (rentExempt : Bool) (bankKey govKey : Pubkey)
    (burnOk : Bool) (amount : Nat) : Except PErr (List Nat) :=
  if depositorIsSigner = false then .error .MissingRequiredSignature
  else if rentExempt = false then .error .NotRentExempt
  else
    match Deposit.unpack_unchecked depositData with
    | .error e => .error e
    | .ok deposit =>
      let upd : Except PErr Deposit :=
        if deposit.is_initialized then
          match u64add deposit.token_amount amount with
          | .error e => .error e
          | .ok t => .ok { deposit with token_amount := t }
        else
          .ok { is_initialized := true, token_amount := amount,
                reward_token_amount := 0,
                reward_governance_token_amount := 0,
                reward_coin_amount := 0, bank := bankKey,
                governance_bank := govKey, owner := depositorKey }
      match upd with
      | .error e => .error e
      | .ok d' =>
        match u64mul amount 1000000000 with
        | .error e => .error e
        | .ok _ =>
          if burnOk = false then .error .ExternalCallFailed
          else Deposit.pack d' depositData.length

/-- processor.rs: `process_add_coin` (Top-up collateral).
Accounts: borrower (signer), trove account, temp lamport account. -/
def process_add_coin (borrowerKey : Pubkey) (borrowerIsSigner : Bool)
    (troveData : List Nat) (tempLamports : Nat) (amount : Nat) :
    Except PErr (List Nat) :=
  if borrowerIsSigner = false then .error .MissingRequiredSignature
  else
    match Trove.unpack_unchecked troveData with
    | .error e => .error e
    | .ok trove =>
      if trove.is_initialized = false then .error .TroveIsNotInitialized
      else if trove.is_liquidated then .error .TroveAlreadyLiquidated
      else if borrowerKey ≠ trove.owner then .error .OnlyForTroveOwner
      else if tempLamports ≠ amount then .error .ExpectedAmountMismatch
      else
        match u64add trove.lamports_amount amount with
        | .error e => .error e
        | .ok l =>
          Trove.pack { trove with lamports_amount := l } troveData.length

/-- processor.rs: `process_withdraw_coin` (Withdraw collateral).
Accounts: borrower (signer), trove account. -/
def process_withdraw_coin (priceCheck : Nat → Nat → Bool)
    (borrowerKey : Pubkey) (borrowerIsSigner : Bool) (troveData : List Nat)
    (amount : Nat) : Except PErr (List Nat) :=
  if borrowerIsSigner = false then .error .MissingRequiredSignature
  else
    match Trove.unpack_unchecked troveData with
    | .error e => .error e
    | .ok trove =>
      if trove.is_initialized = false then .error .TroveIsNotInitialized
      else if trove.is_liquidated then .error .TroveAlreadyLiquidated
      else if borrowerKey ≠ trove.owner then .error .OnlyForTroveOwner
      else
        match u64sub trove.lamports_amount amount with
        | .error e => .error e
        | .ok l' =>
          match check_min_collateral_include_gas_fee priceCheck
              trove.borrow_amount l' with
          | .error e => .error e
          | .ok c =>
            if c = false then .error .InvalidCollateral
            else
              Trove.pack { trove with lamports_amount := l' }
                troveData.length

/-- Result of `process_liquidate_trove`: the system account's new
lamport balance, the trove account's new lamport balance, and the trove
account's new data (the source sets it to the empty slice). -/
structure LiquidateResult where
  sysLamports : Nat
  troveLamports : Nat
  troveData : List Nat
  deriving Repr, DecidableEq

/-- processor.rs: `process_liquidate_trove` (Liquidate).
Accounts: liquidator (signer), trove account, sys account.  The source
checks `liquidator.is_signer` and that the *sys account's* key equals
`SYSTEM_ACCOUNT_ADDRESS`; the liquidator's own key is never compared to
anything, and the sys account is not required to sign. -/
def process_liquidate_trove (liquidatorKey : Pubkey)
    (liquidatorIsSigner : Bool) (troveData : List Nat)
    (troveLamports : Nat) (sysKey : Pubkey) (sysLamports : Nat) :
    Except PErr LiquidateResult :=
  if liquidatorIsSigner = false then .error .MissingRequiredSignature
  else if sysKey ≠ SYSTEM_ACCOUNT_ADDRESS then
    .error .MissingRequiredSignature
  else
    match Trove.unpack_unchecked troveData with
    | .error e => .error e
    | .ok trove =>
      if trove.is_liquidated then .error .TroveAlreadyLiquidated
      else if trove.is_received = false then .error .TroveIsNotReceived
      else
        match checked_add_or_overflow sysLamports troveLamports with
        | .error e => .error e
        | .ok s =>
          .ok { sysLamports := s, troveLamports := 0, troveData := [] }

/-- processor.rs: `process_borrow` (Create debt position).
Accounts: borrower (signer), trove account, rent sysvar.  The collateral
check runs before anything else; `rentExempt` is the host's
rent-exemption verdict. -/
def process_borrow (priceCheck : Nat → Nat → Bool) (borrowerKey : Pubkey)
    (borrowerIsSigner : Bool) (troveData : List Nat) (rentExempt : Bool)
    (borrow_amount lamports : Nat) : Except PErr (List Nat) :=
  match check_min_collateral_include_gas_fee priceCheck borrow_amount
      lamports with
  | .error e => .error e
  | .ok c =>
    if c = false then .error .InvalidCollateral
    else if borrowerIsSigner = false then .error .MissingRequiredSignature
    else if rentExempt = false then .error .NotRentExempt
    else
      match Trove.unpack_unchecked troveData with
      | .error e => .error e
      | .ok trove =>
        if trove.is_initialized then .error .AccountAlreadyInitialized
        else
          match get_depositors_fee borrow_amount with
          | .error e => .error e
          | .ok df =>
            match get_team_fee borrow_amount with
            | .error e => .error e
            | .ok tf =>
              match get_trove_debt_amount borrow_amount with
              | .error e => .error e
              | .ok atc =>
                Trove.pack
                  { is_initialized := true, is_received := false,
                    is_liquidated := false,
                    borrow_amount := borrow_amount,
                    lamports_amount := lamports, team_fee := tf,
                    depositor_fee := df, amount_to_close := atc,
                    owner := borrowerKey }
                  troveData.length

/-- processor.rs: `process_redeem_coin` (Redeem).
Accounts: borrower (signer), trove account.  No owner comparison and no
collateral re-check appear in the source. -/
def process_redeem_coin (borrowerKey : Pubkey) (borrowerIsSigner : Bool)
    (troveData : List Nat) (amount : Nat) : Except PErr (List Nat) :=
  if borrowerIsSigner = false then .error .MissingRequiredSignature
  else
    match Trove.unpack_unchecked troveData with
    | .error e => .error e
    | .ok trove =>
      if trove.is_initialized = false then .error .TroveIsNotInitialized
      else if trove.is_liquidated then .error .TroveAlreadyLiquidated
      else
        match u64sub trove.lamports_amount amount with
        | .error e => .error e
        | .ok l' =>
          Trove.pack { trove with lamports_amount := l' } troveData.length

/-! Decidability of equality on `Except`, used to evaluate the embedded
handlers on concrete inputs. -/

instance instDecEqExcept {ε α : Type} [DecidableEq ε] [DecidableEq α] :
    DecidableEq (Except ε α) := fun a b =>
  match a, b with
  | .error e, .error f =>
    if h : e = f then .isTrue (by subst h; rfl)
    else .isFalse (fun c => by cases c; exact h rfl)
  | .error _, .ok _ => .isFalse (fun c => by cases c)
  | .ok _, .error _ => .isFalse (fun c => by cases c)
  | .ok x, .ok y =>
    if h : x = y then .isTrue (by subst h; rfl)
    else .isFalse (fun c => by cases c; exact h rfl)

/-! Codec lemmas. -/

theorem natToLe_length (k v : Nat) : (natToLe k v).length = k := by
  induction k generalizing v with
  | zero => rfl
  | succ k ih => simp [natToLe, ih]

theorem leToNat_natToLe (k v : Nat) : leToNat (natToLe k v) = v % 256 ^ k := by
  induction k generalizing v with
  | zero => simp [natToLe, leToNat, Nat.mod_one]
  | succ k ih =>
    rw [natToLe, leToNat, ih, Nat.mod_mod_of_dvd v dvd_rfl, pow_succ']
    exact Nat.mod_mul.symm

theorem leToNat_natToLe8 (v : Nat) (h : v < U64LIM) :
    leToNat (natToLe 8 v) = v := by
  rw [leToNat_natToLe]
  exact Nat.mod_eq_of_lt (by calc v < U64LIM := h
                               _ = 256 ^ 8 := by norm_num [U64LIM])

theorem readFlag_boolByte (b : Bool) : readFlag (boolByte b) = .ok b := by
  cases b <;> rfl

theorem readFlag_bad (b : Nat) (h : ¬(b = 0 ∨ b = 1)) :
    readFlag b = .error .InvalidAccountData := by
  push_neg at h
  simp [readFlag, h.1, h.2]

theorem readFlag_good (b : Nat) (h : b = 0 ∨ b = 1) :
    ∃ v, readFlag b = .ok v := by
  rcases h with rfl | rfl <;> exact ⟨_, rfl⟩

theorem deposit_packed_length (d : Deposit) (hb : d.bank.length = 32)
    (hg : d.governance_bank.length = 32) (ho : d.owner.length = 32) :
    d.pack_into_slice.length = Deposit.LEN := by
  simp [Deposit.pack_into_slice, Deposit.LEN, natToLe_length, hb, hg, ho]

theorem trove_packed_length (t : Trove) (ho : t.owner.length = 32) :
    t.pack_into_slice.length = Trove.LEN := by
  simp [Trove.pack_into_slice, Trove.LEN, natToLe_length, ho]

/-- Round-trip of the deposit codec: unpacking a packed valid record
recovers it. -/
theorem deposit_pack_unpack (d : Deposit) (h : d.valid) :
    Deposit.unpack_unchecked d.pack_into_slice = .ok d := by
  obtain ⟨h1, h2, h3, h4, hb, hg, ho⟩ := h
  rw [Deposit.unpack_unchecked,
    if_pos (deposit_packed_length d hb hg ho)]
  rw [Deposit.unpack_from_slice]
  simp only [Deposit.pack_into_slice, List.getD_cons_zero, readFlag_boolByte,
    List.drop_succ_cons, List.drop_zero,
    List.drop_left' (natToLe_length 8 _), List.take_left' (natToLe_length 8 _),
    List.drop_left' hb, List.take_left' hb,
    List.drop_left' hg, List.take_left' hg,
    leToNat_natToLe8 _ h1, leToNat_natToLe8 _ h2, leToNat_natToLe8 _ h3,
    leToNat_natToLe8 _ h4, List.take_of_length_le (le_of_eq ho)]

/-- Round-trip of the trove codec: unpacking a packed valid record
recovers it. -/
theorem trove_pack_unpack (t : Trove) (h : t.valid) :
    Trove.unpack_unchecked t.pack_into_slice = .ok t := by
  obtain ⟨h1, h2, h3, h4, h5, ho⟩ := h
  rw [Trove.unpack_unchecked, if_pos (trove_packed_length t ho)]
  rw [Trove.unpack_from_slice]
  simp only [Trove.pack_into_slice, List.getD_cons_zero, List.getD_cons_succ,
    readFlag_boolByte, List.drop_succ_cons, List.drop_zero,
    List.drop_left' (natToLe_length 8 _), List.take_left' (natToLe_length 8 _),
    leToNat_natToLe8 _ h1, leToNat_natToLe8 _ h2, leToNat_natToLe8 _ h3,
    leToNat_natToLe8 _ h4, leToNat_natToLe8 _ h5]

/-! Concrete sample identities and records used to evaluate the
handlers at explicit inputs. -/

/-- A depositor/borrower identity distinct from the system identity. -/
def k1 : Pubkey := List.replicate 32 1

/-- A second identity. -/
def k2 : Pubkey := List.replicate 32 2

/-- A third identity. -/
def k3 : Pubkey := List.replicate 32 3

/-- A concrete active trove owned by `k1`, already marked received. -/
def sampleTrove : Trove :=
  { is_initialized := true, is_received := true, is_liquidated := false,
    borrow_amount := 1000, lamports_amount := 5000, team_fee := 8,
    depositor_fee := 32, amount_to_close := 800, owner := k1 }

/-- A concrete initialized pool deposit owned by `k1`. -/
def sampleDeposit : Deposit :=
  { is_initialized := true, token_amount := 50, reward_token_amount := 7,
    reward_governance_token_amount := 11, reward_coin_amount := 13,
    bank := k2, governance_bank := k3, owner := k1 }

/-- A deposit whose coin reward sits at the top of the u64 range. -/
def maxRewardDeposit : Deposit :=
  { sampleDeposit with reward_coin_amount := U64LIM - 1 }

/-! Claim theorems. -/

/-- Claim C4: for every valid Trove record and every valid Deposit
record, packing then unpacking yields the same record; unpacking a
fully-zeroed buffer yields an uninitialized record with all numeric
fields zero; and unpacking fails with a decode error whenever any
boolean-flag discriminant byte is neither 0 nor 1. -/
theorem codec_roundtrip_zero_badflag :
    (∀ t : Trove, t.valid →
      Trove.unpack_unchecked t.pack_into_slice = .ok t) ∧
    (∀ d : Deposit, d.valid →
      Deposit.unpack_unchecked d.pack_into_slice = .ok d) ∧
    Trove.unpack_unchecked (List.replicate 75 0) = .ok Trove.zero ∧
    Deposit.unpack_unchecked (List.replicate 129 0) = .ok Deposit.zero ∧
    (∀ src : List Nat, src.length = 75 →
      (¬(src.getD 0 0 = 0 ∨ src.getD 0 0 = 1) ∨
       ¬(src.getD 1 0 = 0 ∨ src.getD 1 0 = 1) ∨
       ¬(src.getD 2 0 = 0 ∨ src.getD 2 0 = 1)) →
      Trove.unpack_unchecked src = .error .InvalidAccountData) ∧
    (∀ src : List Nat, src.length = 129 →
      ¬(src.getD 0 0 = 0 ∨ src.getD 0 0 = 1) →
      Deposit.unpack_unchecked src = .error .InvalidAccountData) := by
  refine ⟨trove_pack_unpack, deposit_pack_unpack, by decide, by decide,
    ?_, ?_⟩
  · intro src hlen hbad
    rw [Trove.unpack_unchecked, if_pos (show src.length = Trove.LEN from hlen),
      Trove.unpack_from_slice]
    rcases hbad with h0 | h1 | h2
    · rw [readFlag_bad _ h0]
    · by_cases g0 : src.getD 0 0 = 0 ∨ src.getD 0 0 = 1
      · obtain ⟨v0, e0⟩ := readFlag_good _ g0
        rw [e0]
        by_cases g2 : src.getD 2 0 = 0 ∨ src.getD 2 0 = 1
        · obtain ⟨v2, e2⟩ := readFlag_good _ g2
          rw [e2, readFlag_bad _ h1]
        · rw [readFlag_bad _ g2]
      · rw [readFlag_bad _ g0]
    · by_cases g0 : src.getD 0 0 = 0 ∨ src.getD 0 0 = 1
      · obtain ⟨v0, e0⟩ := readFlag_good _ g0
        rw [e0, readFlag_bad _ h2]
      · rw [readFlag_bad _ g0]
  · intro src hlen hbad
    rw [Deposit.unpack_unchecked,
      if_pos (show src.length = Deposit.LEN from hlen),
      Deposit.unpack_from_slice, readFlag_bad _ hbad]

/-- Witness for C4 at concrete records: the sample trove and deposit
round-trip, and a buffer whose first byte is 5 is rejected. -/
theorem codec_roundtrip_zero_badflag_witness :
    Trove.unpack_unchecked sampleTrove.pack_into_slice = .ok sampleTrove ∧
    Deposit.unpack_unchecked sampleDeposit.pack_into_slice =
      .ok sampleDeposit ∧
    Trove.unpack_unchecked (5 :: List.replicate 74 0) =
      .error .InvalidAccountData :=
  ⟨codec_roundtrip_zero_badflag.1 sampleTrove (by decide),
   codec_roundtrip_zero_badflag.2.1 sampleDeposit (by decide),
   codec_roundtrip_zero_badflag.2.2.2.2.1 (5 :: List.replicate 74 0)
     (by decide) (Or.inl (by decide))⟩

/-- Claim C2 counterexample: Claim-reward authorizes against the fixed
system identity, not the record's owner.  On a record owned by `k1`, a
claim signed by the system identity (which is not the owner) succeeds
and clears the rewards, while a claim signed by the owner `k1` itself
fails — both contradict the claim as stated. -/
theorem claim_reward_owner_auth_counterexample :
    SYSTEM_ACCOUNT_ADDRESS ≠ sampleDeposit.owner ∧
    process_claim_deposit_reward SYSTEM_ACCOUNT_ADDRESS true
        sampleDeposit.pack_into_slice =
      .ok (Deposit.pack_into_slice
        { sampleDeposit with reward_governance_token_amount := 0,
                             reward_token_amount := 0,
                             reward_coin_amount := 0 }) ∧
    k1 = sampleDeposit.owner ∧
    process_claim_deposit_reward k1 true sampleDeposit.pack_into_slice =
      .error .MissingRequiredSignature := by
  refine ⟨by decide, by decide, by decide, by decide⟩

/-- Claim C2 amended: the three reward fields are cleared only when the
signing identity equals the fixed system identity constant; a claim
signed by any other identity (including the record's owner) fails with a
missing-signature error without mutating the record. -/
theorem claim_reward_system_only (key : Pubkey) (s : Bool)
    (data : List Nat) (d : Deposit)
    (hun : Deposit.unpack_unchecked data = .ok d) :
    (key ≠ SYSTEM_ACCOUNT_ADDRESS →
      process_claim_deposit_reward key s data =
        .error .MissingRequiredSignature) ∧
    (s = false →
      process_claim_deposit_reward key s data =
        .error .MissingRequiredSignature) ∧
    (key = SYSTEM_ACCOUNT_ADDRESS → s = true →
      process_claim_deposit_reward key s data =
        Deposit.pack
          { d with reward_governance_token_amount := 0,
                   reward_token_amount := 0,
                   reward_coin_amount := 0 } data.length) := by
  refine ⟨?_, ?_, ?_⟩
  · intro hk
    cases s <;> simp [process_claim_deposit_reward, hk]
  · intro hs; subst hs
    simp [process_claim_deposit_reward]
  · intro hk hs; subst hk; subst hs
    simp [process_claim_deposit_reward, hun]

/-- Witness for the amended C2: the owner-signed claim on the sample
deposit fails with a missing-signature error. -/
theorem claim_reward_system_only_witness :
    process_claim_deposit_reward k1 true sampleDeposit.pack_into_slice =
      .error .MissingRequiredSignature :=
  (claim_reward_system_only k1 true sampleDeposit.pack_into_slice
    sampleDeposit (by decide)).1 (by decide)

/-- Claim C3 counterexample: the reward additions are not saturating.
With the coin reward at `2^64 - 1` and a supplied coin amount of 1, the
operation aborts on the unchecked u64 addition instead of succeeding
with the field clamped at `2^64 - 1` (as a saturating add would). -/
theorem accrue_reward_saturating_counterexample :
    process_add_deposit_reward SYSTEM_ACCOUNT_ADDRESS true
        maxRewardDeposit.pack_into_slice 1 0 0 = .error .ArithAbort ∧
    (Except.error PErr.ArithAbort : Except PErr (List Nat)) ≠
      Deposit.pack maxRewardDeposit maxRewardDeposit.pack_into_slice.length := by
  refine ⟨by decide, by decide⟩

/-- Claim C3 amended: each of the three reward fields is incremented by
the corresponding supplied amount using plain (unchecked, non-saturating)
u64 addition; if any of the three additions overflows, the operation
aborts on the arithmetic overflow (a Rust abort, not the program's
`AmountOverflow` error code), leaving the record unchanged. -/
theorem accrue_reward_increments_or_aborts (data : List Nat) (d : Deposit)
    (coin governance token : Nat)
    (hun : Deposit.unpack_unchecked data = .ok d) :
    (d.reward_coin_amount + coin < U64LIM →
     d.reward_governance_token_amount + governance < U64LIM →
     d.reward_token_amount + token < U64LIM →
      process_add_deposit_reward SYSTEM_ACCOUNT_ADDRESS true data
          coin governance token =
        Deposit.pack
          { d with reward_coin_amount := d.reward_coin_amount + coin,
                   reward_governance_token_amount :=
                     d.reward_governance_token_amount + governance,
                   reward_token_amount := d.reward_token_amount + token }
          data.length) ∧
    (U64LIM ≤ d.reward_coin_amount + coin ∨
     U64LIM ≤ d.reward_governance_token_amount + governance ∨
     U64LIM ≤ d.reward_token_amount + token →
      process_add_deposit_reward SYSTEM_ACCOUNT_ADDRESS true data
          coin governance token = .error .ArithAbort) := by
  constructor
  · intro h1 h2 h3
    simp [process_add_deposit_reward, hun, u64add, h1, h2, h3]
  · intro hover
    rcases hover with h | h | h
    · simp [process_add_deposit_reward, hun, u64add, Nat.not_lt.2 h]
    · by_cases hc : d.reward_coin_amount + coin < U64LIM
      · simp [process_add_deposit_reward, hun, u64add, hc, Nat.not_lt.2 h]
      · simp [process_add_deposit_reward, hun, u64add, hc]
    · by_cases hc : d.reward_coin_amount + coin < U64LIM
      · by_cases hg :
            d.reward_governance_token_amount + governance < U64LIM
        · simp [process_add_deposit_reward, hun, u64add, hc, hg,
            Nat.not_lt.2 h]
        · simp [process_add_deposit_reward, hun, u64add, hc, hg]
      · simp [process_add_deposit_reward, hun, u64add, hc]

/-- Witness for the amended C3: accruing (3, 4, 5) on the sample deposit
adds the amounts to the three reward fields, and an accrual that
overflows only the governance addition aborts. -/
theorem accrue_reward_increments_or_aborts_witness :
    process_add_deposit_reward SYSTEM_ACCOUNT_ADDRESS true
        sampleDeposit.pack_into_slice 3 4 5 =
      Deposit.pack
        { sampleDeposit with
            reward_coin_amount := sampleDeposit.reward_coin_amount + 3,
            reward_governance_token_amount :=
              sampleDeposit.reward_governance_token_amount + 4,
            reward_token_amount := sampleDeposit.reward_token_amount + 5 }
        sampleDeposit.pack_into_slice.length ∧
    process_add_deposit_reward SYSTEM_ACCOUNT_ADDRESS true
        (Deposit.pack_into_slice
          { sampleDeposit with
              reward_governance_token_amount := U64LIM - 1 }) 3 4 5 =
      .error .ArithAbort :=
  ⟨(accrue_reward_increments_or_aborts sampleDeposit.pack_into_slice
      sampleDeposit 3 4 5 (by decide)).1 (by decide) (by decide) (by decide),
   (accrue_reward_increments_or_aborts
      (Deposit.pack_into_slice
        { sampleDeposit with
            reward_governance_token_amount := U64LIM - 1 })
      { sampleDeposit with reward_governance_token_amount := U64LIM - 1 }
      3 4 5 (by decide)).2 (Or.inr (Or.inl (by decide)))⟩

/-- Claim C10: Withdraw, Claim reward and Accrue reward never check the
deposit record's initialized flag — each succeeds on a never-created
(all-zero) record that meets its other preconditions, writing back a
record that still has `is_initialized = false`, instead of failing with
an uninitialized-record error. -/
theorem pool_ops_accept_uninitialized_record :
    process_withdraw_deposit SYSTEM_ACCOUNT_ADDRESS true
        (List.replicate 129 0) 0 =
      .ok Deposit.zero.pack_into_slice ∧
    process_claim_deposit_reward SYSTEM_ACCOUNT_ADDRESS true
        (List.replicate 129 0) =
      .ok Deposit.zero.pack_into_slice ∧
    process_add_deposit_reward SYSTEM_ACCOUNT_ADDRESS true
        (List.replicate 129 0) 3 4 5 =
      .ok (Deposit.pack_into_slice
        { Deposit.zero with reward_coin_amount := 3,
                            reward_governance_token_amount := 4,
                            reward_token_amount := 5 }) ∧
    Deposit.zero.is_initialized = false := by
  refine ⟨by decide, by decide, by decide, rfl⟩

/-- Claim C1 counterexample: Liquidate does not require the signing
identity to equal the system identity.  A liquidation whose signer is
`k1` (not the system identity) succeeds on a received, non-liquidated
trove, because the handler only checks that the separate sys-account
argument's key equals the constant. -/
theorem liquidate_signer_auth_counterexample :
    k1 ≠ SYSTEM_ACCOUNT_ADDRESS ∧
    process_liquidate_trove k1 true sampleTrove.pack_into_slice 500
        SYSTEM_ACCOUNT_ADDRESS 100 =
      .ok { sysLamports := 600, troveLamports := 0, troveData := [] } := by
  refine ⟨by decide, by decide⟩

/-- Claim C1 amended: Liquidate requires the first account to be a
signer (of any identity) and the third account's key to equal the fixed
system identity constant; the signer's own identity is never compared to
the constant.  If the sys-account key differs, or no signer is present,
the operation fails with a missing-signature error before any state is
mutated, and any successful run had a signer and the system key as
destination. -/
theorem liquidate_requires_system_destination (lk : Pubkey) (s : Bool)
    (data : List Nat) (tl : Nat) (sk : Pubkey) (sl : Nat) :
    (sk ≠ SYSTEM_ACCOUNT_ADDRESS →
      process_liquidate_trove lk s data tl sk sl =
        .error .MissingRequiredSignature) ∧
    (s = false →
      process_liquidate_trove lk s data tl sk sl =
        .error .MissingRequiredSignature) ∧
    (∀ r, process_liquidate_trove lk s data tl sk sl = .ok r →
      s = true ∧ sk = SYSTEM_ACCOUNT_ADDRESS) := by
  refine ⟨?_, ?_, ?_⟩
  · intro hk
    cases s <;> simp [process_liquidate_trove, hk]
  · intro hs; subst hs
    simp [process_liquidate_trove]
  · intro r h
    cases s with
    | false => simp [process_liquidate_trove] at h
    | true =>
      by_cases hk : sk = SYSTEM_ACCOUNT_ADDRESS
      · exact ⟨rfl, hk⟩
      · simp [process_liquidate_trove, hk] at h

/-- Witness for the amended C1: with the sys-account argument set to
`k2` (not the system identity) the liquidation fails with a
missing-signature error. -/
theorem liquidate_requires_system_destination_witness :
    process_liquidate_trove k1 true sampleTrove.pack_into_slice 500 k2 0 =
      .error .MissingRequiredSignature :=
  (liquidate_requires_system_destination k1 true
    sampleTrove.pack_into_slice 500 k2 0).1 (by decide)

/-- Claim C6: on an initialized, non-liquidated trove with an
owner-matching signer, if removing the requested amount leaves the
collateral check failing (the abstracted price-ratio comparison returns
false on the reduced balance), Withdraw-collateral is rejected with the
collateral error.  The handler returns before its single `pack` call, so
the persisted record bytes are unchanged (no partial mutation is
written). -/
theorem withdraw_collateral_failed_check_rejects
    (priceCheck : Nat → Nat → Bool) (bk : Pubkey) (data : List Nat)
    (amount : Nat) (t : Trove)
    (hun : Trove.unpack_unchecked data = .ok t)
    (hinit : t.is_initialized = true) (hliq : t.is_liquidated = false)
    (howner : bk = t.owner) (hle : amount ≤ t.lamports_amount)
    (hgas : GAS_FEE ≤ t.lamports_amount - amount)
    (hfail : priceCheck (t.lamports_amount - amount - GAS_FEE)
        t.borrow_amount = false) :
    process_withdraw_coin priceCheck bk true data amount =
      .error .InvalidCollateral := by
  simp [process_withdraw_coin, hun, hinit, hliq, howner, u64sub, hle,
    check_min_collateral_include_gas_fee, hgas, hfail]

/-- Witness for C6: with a price check that always fails, withdrawing
1000 from the sample trove is rejected with the collateral error. -/
theorem withdraw_collateral_failed_check_rejects_witness :
    process_withdraw_coin (fun _ _ => false) k1 true
        sampleTrove.pack_into_slice 1000 = .error .InvalidCollateral :=
  withdraw_collateral_failed_check_rejects (fun _ _ => false) k1
    sampleTrove.pack_into_slice 1000 sampleTrove (by decide) (by decide)
    (by decide) (by decide) (by decide) (by decide) rfl

/-- Claim C7: Redeem accepts any signer — no comparison of the signer
against the trove owner appears (the conclusion below holds for an
arbitrary signer key `bk`), and no collateral re-check is run (the
handler takes no price function at all).  Its effect is
`lamports_amount := lamports_amount - amount`, and the only failure mode
on the amount is underflow: a requested amount exceeding the stored
collateral aborts the operation rather than wrapping. -/
theorem redeem_any_signer_subtracts_or_aborts (bk : Pubkey)
    (data : List Nat) (amount : Nat) (t : Trove)
    (hun : Trove.unpack_unchecked data = .ok t)
    (hinit : t.is_initialized = true) (hliq : t.is_liquidated = false) :
    (amount ≤ t.lamports_amount →
      process_redeem_coin bk true data amount =
        Trove.pack { t with lamports_amount := t.lamports_amount - amount }
          data.length) ∧
    (t.lamports_amount < amount →
      process_redeem_coin bk true data amount = .error .ArithAbort) := by
  constructor
  · intro hle
    simp [process_redeem_coin, hun, hinit, hliq, u64sub, hle]
  · intro hlt
    simp [process_redeem_coin, hun, hinit, hliq, u64sub, Nat.not_le.2 hlt]

/-- Witness for C7: a signer `k2` that is not the trove owner redeems 1
lamport from the sample trove, and a redemption of more than the stored
collateral aborts. -/
theorem redeem_any_signer_subtracts_or_aborts_witness :
    process_redeem_coin k2 true sampleTrove.pack_into_slice 1 =
      Trove.pack
        { sampleTrove with
            lamports_amount := sampleTrove.lamports_amount - 1 }
        sampleTrove.pack_into_slice.length ∧
    process_redeem_coin k2 true sampleTrove.pack_into_slice 6000 =
      .error .ArithAbort :=
  ⟨(redeem_any_signer_subtracts_or_aborts k2 sampleTrove.pack_into_slice 1
      sampleTrove (by decide) (by decide) (by decide)).1 (by decide),
   (redeem_any_signer_subtracts_or_aborts k2 sampleTrove.pack_into_slice
      6000 sampleTrove (by decide) (by decide) (by decide)).2 (by decide)⟩

/-- Claim C8: a Deposit top-up on an already-initialized pool record
changes only `token_amount` (incremented by the deposited amount); the
`bank`, `governance_bank` and `owner` fields and the three reward fields
keep exactly their prior values — the written record is the unpacked
record updated in `token_amount` alone, even though fresh bank and
governance keys are supplied to the handler. -/
theorem topup_increments_token_amount_only (dk bk gk : Pubkey)
    (data : List Nat) (amount : Nat) (d : Deposit)
    (hun : Deposit.unpack_unchecked data = .ok d)
    (hinit : d.is_initialized = true)
    (hadd : d.token_amount + amount < U64LIM)
    (hmul : amount * 1000000000 < U64LIM) :
    process_add_deposit dk true data true bk gk true amount =
      Deposit.pack { d with token_amount := d.token_amount + amount }
        data.length := by
  simp [process_add_deposit, hun, hinit, u64add, hadd, u64mul, hmul]

/-- Witness for C8: topping up the sample deposit by 5 with fresh bank
and governance keys leaves every field but `token_amount` unchanged. -/
theorem topup_increments_token_amount_only_witness :
    process_add_deposit k1 true sampleDeposit.pack_into_slice true k3 k2
        true 5 =
      Deposit.pack
        { sampleDeposit with
            token_amount := sampleDeposit.token_amount + 5 }
        sampleDeposit.pack_into_slice.length :=
  topup_increments_token_amount_only k1 k3 k2
    sampleDeposit.pack_into_slice 5 sampleDeposit (by decide) (by decide)
    (by decide) (by decide)

/-! Fee-arithmetic lemmas shared by the fee claims. -/

theorem get_trove_debt_amount_eq (gross : Nat) (h : GAS_FEE ≤ gross) :
    get_trove_debt_amount gross = .ok (gross - GAS_FEE) := by
  simp [get_trove_debt_amount, u64sub, h]

theorem get_depositors_fee_eq (gross : Nat) (h : GAS_FEE ≤ gross)
    (hm : (gross - GAS_FEE) * DEPOSIT_FEE < U64LIM) :
    get_depositors_fee gross =
      .ok ((gross - GAS_FEE) * DEPOSIT_FEE / 100) := by
  simp [get_depositors_fee, get_trove_debt_amount_eq gross h, u64mul, hm]

theorem get_team_fee_eq (gross : Nat) (h : GAS_FEE ≤ gross)
    (hm : (gross - GAS_FEE) * DEPOSIT_FEE < U64LIM) :
    get_team_fee gross = .ok ((gross - GAS_FEE) * TEAM_FEE / 100) := by
  have hm1 : (gross - GAS_FEE) * TEAM_FEE < U64LIM := by
    have hle : (gross - GAS_FEE) * TEAM_FEE ≤
        (gross - GAS_FEE) * DEPOSIT_FEE :=
      Nat.mul_le_mul_left _ (by norm_num [TEAM_FEE, DEPOSIT_FEE])
    omega
  simp [get_team_fee, get_trove_debt_amount_eq gross h, u64mul, hm1]

theorem get_trove_sent_amount_eq (gross : Nat) (h : GAS_FEE ≤ gross)
    (hm : (gross - GAS_FEE) * DEPOSIT_FEE < U64LIM) :
    get_trove_sent_amount gross =
      .ok (gross - GAS_FEE - (gross - GAS_FEE) * DEPOSIT_FEE / 100 -
        (gross - GAS_FEE) * TEAM_FEE / 100) := by
  have e4 : DEPOSIT_FEE = 4 := rfl
  have e1 : TEAM_FEE = 1 := rfl
  have f1 : (gross - GAS_FEE) * DEPOSIT_FEE / 100 * 100 ≤
      (gross - GAS_FEE) * DEPOSIT_FEE := Nat.div_mul_le_self _ _
  have f2 : (gross - GAS_FEE) * TEAM_FEE / 100 * 100 ≤
      (gross - GAS_FEE) * TEAM_FEE := Nat.div_mul_le_self _ _
  have hdf : (gross - GAS_FEE) * DEPOSIT_FEE / 100 ≤ gross - GAS_FEE := by
    rw [e4] at f1 ⊢; omega
  have htf : (gross - GAS_FEE) * TEAM_FEE / 100 ≤
      gross - GAS_FEE - (gross - GAS_FEE) * DEPOSIT_FEE / 100 := by
    rw [e4] at f1; rw [e1] at f2; rw [e4, e1]; omega
  simp [get_trove_sent_amount, get_trove_debt_amount_eq gross h,
    get_depositors_fee_eq gross h hm, get_team_fee_eq gross h hm, u64sub,
    hdf, htf]

/-- Claim C5: for a gross borrow amount (in the range where the u64
arithmetic is defined, compare C9), the debt is the gross amount minus
the fixed origination charge, the depositor and team fees are the debt
times the fee percentages with truncating division by 100, the net
disbursed amount is debt minus both fees, and a successful creation
writes a trove whose `amount_to_close` equals gross minus the charge. -/
theorem fee_formulas (gross : Nat) (hge : GAS_FEE ≤ gross)
    (hm : (gross - GAS_FEE) * DEPOSIT_FEE < U64LIM) :
    get_trove_debt_amount gross = .ok (gross - GAS_FEE) ∧
    get_depositors_fee gross =
      .ok ((gross - GAS_FEE) * DEPOSIT_FEE / 100) ∧
    get_team_fee gross = .ok ((gross - GAS_FEE) * TEAM_FEE / 100) ∧
    get_trove_sent_amount gross =
      .ok (gross - GAS_FEE - (gross - GAS_FEE) * DEPOSIT_FEE / 100 -
        (gross - GAS_FEE) * TEAM_FEE / 100) ∧
    (∀ (priceCheck : Nat → Nat → Bool) (bk : Pubkey) (s : Bool)
        (data : List Nat) (rentEx : Bool) (lamports : Nat)
        (newData : List Nat),
      process_borrow priceCheck bk s data rentEx gross lamports =
        .ok newData →
      newData = Trove.pack_into_slice
        { is_initialized := true, is_received := false,
          is_liquidated := false, borrow_amount := gross,
          lamports_amount := lamports,
          team_fee := (gross - GAS_FEE) * TEAM_FEE / 100,
          depositor_fee := (gross - GAS_FEE) * DEPOSIT_FEE / 100,
          amount_to_close := gross - GAS_FEE, owner := bk }) := by
  refine ⟨get_trove_debt_amount_eq gross hge,
    get_depositors_fee_eq gross hge hm, get_team_fee_eq gross hge hm,
    get_trove_sent_amount_eq gross hge hm, ?_⟩
  intro priceCheck bk s data rentEx lamports newData h
  simp only [process_borrow, get_depositors_fee_eq gross hge hm,
    get_team_fee_eq gross hge hm, get_trove_debt_amount_eq gross hge,
    Trove.pack] at h
  split at h
  · cases h
  · split at h
    · cases h
    · split at h
      · cases h
      · split at h
        · cases h
        · split at h
          · cases h
          · split at h
            · cases h
            · split at h
              · exact (Except.ok.inj h).symm
              · cases h

/-- Witness for C5 at gross = 1000: debt 800, depositor fee 32, team
fee 8, net disbursed 760. -/
theorem fee_formulas_witness :
    get_trove_debt_amount 1000 = .ok 800 ∧
    get_depositors_fee 1000 = .ok 32 ∧
    get_team_fee 1000 = .ok 8 ∧
    get_trove_sent_amount 1000 = .ok 760 :=
  ⟨(fee_formulas 1000 (by decide) (by decide)).1,
   (fee_formulas 1000 (by decide) (by decide)).2.1,
   (fee_formulas 1000 (by decide) (by decide)).2.2.1,
   (fee_formulas 1000 (by decide) (by decide)).2.2.2.1⟩

/-- Claim C9: the fee helpers and the collateral check subtract the
fixed charge (200) from their u64 input with unchecked subtraction, so
they are defined only when the input is at least 200: below that, the
debt and fee helpers abort on underflow, the collateral check aborts
before its price comparison, and Borrow aborts on the arithmetic
underflow — not with one of the program's error codes — both when the
collateral is below 200 and when the gross amount is below 200 on a run
that reaches the fee computation. -/
theorem gas_fee_underflow (gross lamports : Nat)
    (priceCheck : Nat → Nat → Bool) :
    (gross < GAS_FEE →
      get_trove_debt_amount gross = .error .ArithAbort ∧
      get_depositors_fee gross = .error .ArithAbort ∧
      get_team_fee gross = .error .ArithAbort) ∧
    (lamports < GAS_FEE →
      check_min_collateral_include_gas_fee priceCheck gross lamports =
        .error .ArithAbort ∧
      (∀ (bk : Pubkey) (s rentEx : Bool) (data : List Nat),
        process_borrow priceCheck bk s data rentEx gross lamports =
          .error .ArithAbort)) ∧
    (∀ (bk : Pubkey) (data : List Nat) (t : Trove), gross < GAS_FEE →
      GAS_FEE ≤ lamports →
      priceCheck (lamports - GAS_FEE) gross = true →
      Trove.unpack_unchecked data = .ok t → t.is_initialized = false →
      process_borrow priceCheck bk true data true gross lamports =
        .error .ArithAbort) := by
  refine ⟨?_, ?_, ?_⟩
  · intro hlt
    have hn := Nat.not_le.2 hlt
    exact ⟨by simp [get_trove_debt_amount, u64sub, hn],
      by simp [get_depositors_fee, get_trove_debt_amount, u64sub, hn],
      by simp [get_team_fee, get_trove_debt_amount, u64sub, hn]⟩
  · intro hlt
    have hn := Nat.not_le.2 hlt
    refine ⟨by simp [check_min_collateral_include_gas_fee, u64sub, hn], ?_⟩
    intro bk s rentEx data
    simp [process_borrow, check_min_collateral_include_gas_fee, u64sub, hn]
  · intro bk data t hlt hlam hpc hun hinit
    have hn := Nat.not_le.2 hlt
    simp [process_borrow, check_min_collateral_include_gas_fee, u64sub,
      hlam, hpc, hun, hinit, get_depositors_fee, get_trove_debt_amount, hn]

/-- Witness for C9 at gross = 100 (below the fixed charge): the debt and
fee helpers abort, and a borrow with 50 lamports of collateral aborts. -/
theorem gas_fee_underflow_witness :
    get_trove_debt_amount 100 = .error .ArithAbort ∧
    get_depositors_fee 100 = .error .ArithAbort ∧
    get_team_fee 100 = .error .ArithAbort ∧
    process_borrow (fun _ _ => true) k1 true (List.replicate 75 0) true
        100 50 = .error .ArithAbort :=
  ⟨((gas_fee_underflow 100 50 (fun _ _ => true)).1 (by decide)).1,
   ((gas_fee_underflow 100 50 (fun _ _ => true)).1 (by decide)).2.1,
   ((gas_fee_underflow 100 50 (fun _ _ => true)).1 (by decide)).2.2,
   ((gas_fee_underflow 100 50 (fun _ _ => true)).2.1 (by decide)).2 k1
     true true (List.replicate 75 0)⟩

end LaSolana

